import Mathlib

/-!
Verification of the configuration-assembly logic of the YOLOv8 trainer
notebook (`src/object-detection.ipynb`).  The notebook glues together a
dataset download, the assembly of a `data.yaml` configuration mapping, a
hyperparameter dictionary, one training call, one validation call and one
shell export command.  We embed the dictionaries the notebook builds, the
entries it serializes, and the external invocations it makes, and prove the
spec's data-shape claims about them.
-/

namespace YoloTrainer

/-- A Python value of the kinds the notebook puts into its dictionaries:
strings, integers, booleans, floats (carried as exact rationals, since the
notebook only ever writes the literal `1e-4` and never computes with it),
lists, and nested dictionaries. -/
inductive PyValue where
  | str : String → PyValue
  | int : Int → PyValue
  | bool : Bool → PyValue
  | float : Rat → PyValue
  | list : List PyValue → PyValue
  | dict : List (String × PyValue) → PyValue

/-- A Roboflow project as the notebook uses it: `project.classes` is a
mapping from class name to annotation count, queried from the hosting
service's project metadata. -/
structure Project where
  workspaceName : String
  projectName : String
  classes : List (String × Int)

/-- A downloaded dataset as produced by `version.download(fmt, location=loc)`:
a directory at `location` in the requested format, whose metadata carries the
class names of the project it was exported from (the hosting service exports
the project's class list with the dataset). -/
structure Dataset where
  modelFormat : String
  location : String
  classNames : List String

/-- Embedding of `version.download("yolov8", location="datasets")` for a
version of project `p`: the dataset lands in `loc` and its metadata carries
the class names of `p`. -/
def Project.download (p : Project) (fmt loc : String) : Dataset :=
  ⟨fmt, loc, p.classes.map Prod.fst⟩

/-- Embedding of `labels = list(project.classes.keys())`. -/
def labelsOf (p : Project) : List String := p.classes.map Prod.fst

/-- Embedding of the `data_yaml` dictionary built by the notebook:

    data_yaml = { "path": ".", "train": "train", "val": "valid",
                  "test": "test", "nc": nc, "names": labels }

with `nc = len(labels)`.  Python dictionaries preserve insertion order, so we
embed the mapping as an association list in insertion order. -/
def data_yaml (labels : List String) : List (String × PyValue) :=
  [("path", .str "."),
   ("train", .str "train"),
   ("val", .str "valid"),
   ("test", .str "test"),
   ("nc", .int labels.length),
   ("names", .list (labels.map .str))]

/-- Lexicographic strict order on character lists by code point; this is the
order Python's `sorted` uses on strings, which is the order PyYAML sorts
mapping keys with. -/
def charListLt : List Char → List Char → Bool
  | [], [] => false
  | [], _ :: _ => true
  | _ :: _, [] => false
  | a :: as, b :: bs =>
    if a.toNat < b.toNat then true
    else if b.toNat < a.toNat then false
    else charListLt as bs

/-- Strict code-point order on strings. -/
def keyLt (a b : String) : Bool := charListLt a.data b.data

/-- Insert an entry into a key-sorted association list, keeping ascending
key order (used to model PyYAML's sorted key emission). -/
def insertByKey (p : String × PyValue) :
    List (String × PyValue) → List (String × PyValue)
  | [] => [p]
  | q :: rest =>
    if keyLt p.1 q.1 then p :: q :: rest else q :: insertByKey p rest

/-- Sort an association list by key, ascending.  `yaml.dump` is called with
its default `sort_keys=True`, so the serializer emits the mapping's entries
in sorted key order, not insertion order. -/
def sortByKey : List (String × PyValue) → List (String × PyValue)
  | [] => []
  | p :: rest => insertByKey p (sortByKey rest)

/-- Does the safe serializer know how to represent this value?  PyYAML's
`SafeDumper` represents strings, integers, booleans, floats, lists and
dictionaries; any other Python object raises `RepresenterError`.  All values
the notebook builds are made of these constructors, so within `PyValue` the
recursion is over the structure. -/
def representable : PyValue → Bool
  | .str _ => true
  | .int _ => true
  | .bool _ => true
  | .float _ => true
  | .list [] => true
  | .list (v :: vs) => representable v && representable (.list vs)
  | .dict [] => true
  | .dict ((_, v) :: kvs) => representable v && representable (.dict kvs)

/-- Embedding of `yaml.dump(m, fp, yaml.SafeDumper)` at the level of the
sequence of top-level entries written to the file: if every value is
representable by the safe dumper, the entries are emitted in sorted key
order (the call leaves `sort_keys` at its default `True`); otherwise the
dumper raises `RepresenterError`. -/
def yamlDump (m : List (String × PyValue)) :
    Except String (List (String × PyValue)) :=
  if m.all fun p => representable p.2 then .ok (sortByKey m)
  else .error "RepresenterError: cannot represent an object"

/-- Embedding of `yaml.safe_load` applied to a file holding the dumped
entries: YAML parses the document's mapping entries in file order, and
Python dictionaries preserve that order, so the loaded mapping is exactly
the entry sequence of the file. -/
def yamlLoad (fileEntries : List (String × PyValue)) :
    List (String × PyValue) := fileEntries

/-- Round trip of a mapping through the serializer: dump, then load the
result.  Defined only on the dump's success branch. -/
def yamlRoundTrip (m : List (String × PyValue)) :
    Except String (List (String × PyValue)) :=
  (yamlDump m).map yamlLoad

/-- Embedding of the `simple_hyperparameters` dictionary. -/
def simple_hyperparameters : List (String × PyValue) :=
  [("device", .int 0),
   ("data", .str "data.yaml"),
   ("epochs", .int 20),
   ("batch", .int 16),
   ("seed", .int 1337)]

/-- Embedding of the `hyperparameters` dictionary passed to `model.train`. -/
def hyperparameters : List (String × PyValue) :=
  [("device", .int 0),
   ("data", .str "data.yaml"),
   ("epochs", .int 20),
   ("batch", .int 16),
   ("optimizer", .str "AdamW"),
   ("cos_lr", .bool true),
   ("lr0", .float (1 / 10000)),
   ("warmup_epochs", .int 5),
   ("project", .str "object-detection"),
   ("name", .str "training-1"),
   ("verbose", .bool true),
   ("seed", .int 1337)]

/-- Is the value a flat scalar in the spec's sense (string, integer,
boolean or float), as opposed to a nested sequence or mapping? -/
def isScalar : PyValue → Bool
  | .str _ => true
  | .int _ => true
  | .bool _ => true
  | .float _ => true
  | .list _ => false
  | .dict _ => false

/-- The keyword arguments `model.train(**hyperparameters)` receives: the
double-star splat passes the mapping through unchanged, and the notebook
performs no check or transformation on it. -/
def modelTrainArgs : List (String × PyValue) := hyperparameters

/-- Where the training call writes its best checkpoint.  The training
library saves the run under `<project>/<name>` and the best weights at
`<project>/<name>/weights/best.pt`; the spec refers to this as the output
location determined by the training call's project and run-name settings.
`none` when the mapping lacks string-valued `project` and `name` entries. -/
def bestWeightsPath (hp : List (String × PyValue)) : Option String :=
  match hp.lookup "project", hp.lookup "name" with
  | some (.str proj), some (.str nm) =>
      some (proj ++ "/" ++ nm ++ "/weights/best.pt")
  | _, _ => none

/-- The `model=` argument of the shell command
`! yolo export model=object-detector/test-run-3/weights/best.pt format=tflite`. -/
def exportModelArg : String := "object-detector/test-run-3/weights/best.pt"

/-- The `format=` argument of the export shell command. -/
def exportFormatArg : String := "tflite"

/-- How an external operation is invoked from the notebook. -/
inductive CallKind where
  | library
  | shell
  deriving DecidableEq

/-- The major external operations the notebook performs, in order, each
tagged with how the source invokes it: `version.download(...)` is a library
call, `model.train(**hyperparameters)` is a library call, `model.val()` is a
library call, and the export is the shell command `! yolo export ...`, not a
library call. -/
def majorOperations : List (String × CallKind) :=
  [("download", .library),
   ("train", .library),
   ("validate", .library),
   ("export", .shell)]

/-- The literal root path the notebook records under the `path` key. -/
def rootPath : String := "."

/-- The `location` argument the notebook passes to `version.download`. -/
def downloadLocation : String := "datasets"

/-- Join a directory path and a child name with a slash. -/
def joinPath (a b : String) : String := a ++ "/" ++ b

/-! ## Helper lemmas -/

theorem insertByKey_perm (p : String × PyValue) (l : List (String × PyValue)) :
    (insertByKey p l).Perm (p :: l) := by
  induction l with
  | nil => simp [insertByKey]
  | cons q rest ih =>
    by_cases h : keyLt p.1 q.1 = true
    · simp [insertByKey, h]
    · simp only [insertByKey, h, if_false, Bool.false_eq_true, if_neg,
        not_false_iff]
      exact (ih.cons q).trans (List.Perm.swap p q rest)

theorem sortByKey_perm (m : List (String × PyValue)) :
    (sortByKey m).Perm m := by
  induction m with
  | nil => simp [sortByKey]
  | cons p rest ih =>
    exact (insertByKey_perm p (sortByKey rest)).trans (ih.cons p)

theorem representable_str_list (ls : List String) :
    representable (.list (ls.map .str)) = true := by
  induction ls with
  | nil => simp [representable]
  | cons a t ih => simpa [representable] using ih

theorem data_yaml_all_representable (labels : List String) :
    ((data_yaml labels).all fun p => representable p.2) = true := by
  simp [data_yaml, representable, representable_str_list labels]

theorem yamlDump_data_yaml (labels : List String) :
    yamlDump (data_yaml labels) = Except.ok (sortByKey (data_yaml labels)) := by
  simp [yamlDump, data_yaml_all_representable]

theorem sortByKey_data_yaml_keys (labels : List String) :
    (sortByKey (data_yaml labels)).map Prod.fst =
      ["names", "nc", "path", "test", "train", "val"] := rfl

theorem yamlRoundTrip_data_yaml (labels : List String) :
    yamlRoundTrip (data_yaml labels) =
      Except.ok (sortByKey (data_yaml labels)) := by
  unfold yamlRoundTrip
  rw [yamlDump_data_yaml]
  rfl

/-! ## Claim theorems -/

/-- C1: in the configuration record assembled by the notebook and in the
entries serialized to the configuration file, the class count under `nc`
always equals the length of the class name list under `names`, for every
class-name list obtained from the project metadata. -/
theorem C1_nc_matches_names_length (labels : List String) :
    ∃ ns : List PyValue,
      (data_yaml labels).lookup "names" = some (.list ns) ∧
      (data_yaml labels).lookup "nc" = some (.int ns.length) ∧
      (sortByKey (data_yaml labels)).lookup "names" = some (.list ns) ∧
      (sortByKey (data_yaml labels)).lookup "nc" = some (.int ns.length) := by
  refine ⟨labels.map .str, rfl, ?_, rfl, ?_⟩ <;> rw [List.length_map] <;> rfl

/-- C2, counterexample: the round trip through the serializer does not
preserve key order.  With the concrete class list `["crate"]`, dumping
`data_yaml` and loading the result yields no mapping whose key sequence
equals the original insertion order `path, train, val, test, nc, names`,
because the dump emits the keys sorted. -/
theorem C2_roundtrip_order_counterexample :
    ¬ ∃ m, yamlRoundTrip (data_yaml ["crate"]) = Except.ok m ∧
        m.map Prod.fst = (data_yaml ["crate"]).map Prod.fst := by
  rintro ⟨m, hm, hk⟩
  rw [yamlRoundTrip_data_yaml] at hm
  injection hm with hm
  subst hm
  exact absurd hk (by decide)

/-- C2, amended: the round trip through the serializer preserves the entries
themselves — the result is a permutation of the original mapping, so the
same keys carry the same values and hence values of the same types — but the
keys come back in sorted order (`names, nc, path, test, train, val`), not in
the original insertion order, because the dump call leaves the serializer's
key sorting at its default. -/
theorem C2_roundtrip_perm_sorted (labels : List String) :
    ∃ m, yamlRoundTrip (data_yaml labels) = Except.ok m ∧
      m.Perm (data_yaml labels) ∧
      m.map Prod.fst = ["names", "nc", "path", "test", "train", "val"] :=
  ⟨sortByKey (data_yaml labels), yamlRoundTrip_data_yaml labels,
    sortByKey_perm _, sortByKey_data_yaml_keys labels⟩

/-- C3: the model path in the export shell command does not refer to the
output location determined by the training call's `project` and `name`
settings.  Training with the notebook's `hyperparameters` writes its best
weights under `object-detection/training-1/weights/best.pt`, while the
export command reads `object-detector/test-run-3/weights/best.pt`, a
different path. -/
theorem C3_export_path_mismatch :
    bestWeightsPath hyperparameters =
      some "object-detection/training-1/weights/best.pt" ∧
    exportModelArg = "object-detector/test-run-3/weights/best.pt" ∧
    bestWeightsPath hyperparameters ≠ some exportModelArg :=
  ⟨rfl, rfl, by decide⟩

/-- C4, counterexample: it is not the case that the notebook's major
operations comprise four library calls with export among them; the export
step is invoked as a shell command, so only three of the four major
operations are library calls. -/
theorem C4_export_is_shell_counterexample :
    ¬ (((majorOperations.filter fun p => p.2 == CallKind.library).length = 4) ∧
       majorOperations.lookup "export" = some CallKind.library) := by
  decide

/-- C4, amended: the notebook performs exactly three library calls —
download, train, validate — each an opaque invocation of an external system,
and invokes the fourth major operation, export, as a shell command. -/
theorem C4_three_library_calls_shell_export :
    (majorOperations.filter fun p => p.2 == CallKind.library).map Prod.fst =
      ["download", "train", "validate"] ∧
    majorOperations.lookup "export" = some CallKind.shell ∧
    majorOperations.length = 4 := by
  decide

/-- C5: for every run of the configuration-assembly step, the configuration
mapping has exactly the six fixed top-level keys: the root path `path`, the
three split names `train`, `val`, `test`, the class count `nc`, and the
class name list `names`. -/
theorem C5_config_has_fixed_six_keys (labels : List String) :
    (data_yaml labels).map Prod.fst =
      ["path", "train", "val", "test", "nc", "names"] ∧
    (data_yaml labels).length = 6 :=
  ⟨rfl, rfl⟩

/-- C6: every value of the hyperparameter mapping is a scalar, boolean or
string — no nested mapping or sequence occurs — and the mapping reaches the
single training call unmodified, since the double-star splat passes it
through and the notebook performs no validation or transformation. -/
theorem C6_hyperparameters_flat_passed_unmodified :
    (hyperparameters.all fun p => isScalar p.2) = true ∧
    modelTrainArgs = hyperparameters :=
  ⟨rfl, rfl⟩

/-- C7: for every project, the class name list stored under `names` in the
configuration mapping is exactly the class-name list carried by the dataset
that `version.download("yolov8", location="datasets")` downloaded from that
project. -/
theorem C7_names_from_downloaded_dataset (p : Project) :
    (data_yaml (labelsOf p)).lookup "names" =
      some (.list ((p.download "yolov8" "datasets").classNames.map .str)) :=
  rfl

/-- C8: the root path recorded in the configuration is the literal `"."`,
the download step places the dataset under `"datasets"`, these differ, and
joining a split folder name to the recorded root yields a path different
from the corresponding subdirectory of the download location. -/
theorem C8_root_path_is_dot_not_datasets (p : Project) :
    (data_yaml (labelsOf p)).lookup "path" = some (.str rootPath) ∧
    rootPath = "." ∧
    (p.download "yolov8" downloadLocation).location = "datasets" ∧
    rootPath ≠ downloadLocation ∧
    joinPath rootPath "train" ≠ joinPath downloadLocation "train" :=
  ⟨rfl, rfl, rfl, by decide, by decide⟩

/-- C9: the simple hyperparameter mapping has exactly the keys `device`,
`data`, `epochs`, `batch`, `seed`, and looking each of them up in the full
hyperparameter mapping yields the identical value, so the full mapping is a
refinement of the simple configuration. -/
theorem C9_simple_is_submapping_of_full :
    simple_hyperparameters.map Prod.fst =
      ["device", "data", "epochs", "batch", "seed"] ∧
    (simple_hyperparameters.map fun p => hyperparameters.lookup p.1) =
      simple_hyperparameters.map fun p => some p.2 :=
  ⟨rfl, rfl⟩

/-- C10: serialization of the configuration record never fails: for every
class-name list of strings, every value of the configuration mapping is
representable by the safe dumper, so the dump takes its success branch and
the unrepresentable-object error branch is unreachable. -/
theorem C10_safe_dump_never_errors (labels : List String) :
    ((data_yaml labels).all fun p => representable p.2) = true ∧
    yamlDump (data_yaml labels) = Except.ok (sortByKey (data_yaml labels)) :=
  ⟨data_yaml_all_representable labels, yamlDump_data_yaml labels⟩

end YoloTrainer
